import Mathlib

/-!
Verification development for the DEF CON talk-archival and summarization
pipeline (run_spider.py and src/summarizer.py).

Python strings are modelled as lists of Nat codepoints (a Python `str` is a
sequence of code points).  `str.lower`/`str.upper` are modelled by the ASCII
case mapping, which is what they do on the ASCII alphabet all of the
program's fixed tokens (extensions, provider names) are drawn from.  External
library boundaries (scrapy fetching, hashlib digests, urlparse, the provider
HTTP clients, json decoding) enter the model as explicit parameters or as
small outcome types recording what the library call produced.
-/

namespace DefconPipeline

/-- Codepoints of a list of characters; used to write string constants. -/
def listCodes (l : List Char) : List Nat := l.map Char.toNat

/-- Python `str.lower` on one codepoint (ASCII case mapping). -/
def pyLowerChar (c : Nat) : Nat :=
  if 65 ≤ c ∧ c ≤ 90 then c + 32 else c

/-- Python `str.upper` on one codepoint (ASCII case mapping). -/
def pyUpperChar (c : Nat) : Nat :=
  if 97 ≤ c ∧ c ≤ 122 then c - 32 else c

/-- Python `s.lower()`. -/
def pyLower (s : List Nat) : List Nat := s.map pyLowerChar

/-- Python `s.upper()` restricted to the ASCII case mapping. -/
def pyUpper (s : List Nat) : List Nat := s.map pyUpperChar

/-- Python `str.upper` applies the full Unicode case mapping, under which a
codepoint may expand to several: this models the fragment this development
uses — the ASCII mapping plus the Latin small ligature fl (codepoint 64258),
whose Unicode uppercase is the two-codepoint sequence F L.  Every other
codepoint appearing in this file is its own fixed point of the full table
beyond the ASCII mapping. -/
def pyUpperCharU (c : Nat) : List Nat :=
  if c = 64258 then [70, 76] else [pyUpperChar c]

/-- Python `s.upper()` under the full Unicode case mapping (the fragment of
`pyUpperCharU`); uppercasing can change the length of the string. -/
def pyUpperU : List Nat → List Nat
  | [] => []
  | c :: t => pyUpperCharU c ++ pyUpperU t

/-- Python `s.startswith(p)`. -/
def startsWith (p s : List Nat) : Bool := p.isPrefixOf s

/-- Python `s.endswith(p)`. -/
def endsWith (p s : List Nat) : Bool := p.isSuffixOf s

/-- Python `needle in hay` (substring containment). -/
def containsSub (needle : List Nat) : List Nat → Bool
  | [] => needle.isEmpty
  | c :: t => needle.isPrefixOf (c :: t) || containsSub needle t

/-- Python `s.split(chr(10))`: split on every newline; never empty. -/
def splitNl : List Nat → List (List Nat)
  | [] => [[]]
  | c :: t =>
    if c = 10 then [] :: splitNl t
    else
      match splitNl t with
      | [] => [[c]]
      | h :: r => (c :: h) :: r

/-- Python `s.strip(chars)`: remove every leading and trailing codepoint
belonging to the set `chars` (both ends, any order — not prefix removal). -/
def pyStrip (chars s : List Nat) : List Nat :=
  ((s.dropWhile (· ∈ chars)).reverse.dropWhile (· ∈ chars)).reverse

/-- Python whitespace codepoints, for no-argument `str.strip()`. -/
def pyWhitespace : List Nat := [32, 9, 10, 13, 11, 12]

/-- Python `s.strip()` (no argument): strip whitespace from both ends. -/
def pyStripWS (s : List Nat) : List Nat := pyStrip pyWhitespace s

/-- Removal of an exact leading token, used only to state the spec's words
about prefix stripping (the code itself uses `pyStrip`). -/
def dropExact (p s : List Nat) : List Nat :=
  if p.isPrefixOf s then s.drop p.length else s

end DefconPipeline

namespace DefconPipeline

/-! ### Summarizer data model (src/summarizer.py) -/

/-- The pydantic `Summary` model: title and three string lists. -/
structure Summary where
  title : List Nat
  main_points : List (List Nat)
  technical_details : List (List Nat)
  implications : List (List Nat)
deriving Repr, DecidableEq

/-- The codepoints of the literal Error. -/
def errorTitle : List Nat := listCodes ['E', 'r', 'r', 'o', 'r']

/-- The sentinel returned by the Ollama variant on any caught failure:
`Summary(title=Error, main_points=[], technical_details=[], implications=[])`. -/
def errorSummary : Summary :=
  { title := errorTitle, main_points := [], technical_details := [], implications := [] }

/-- Codepoints of the token dash-space, the main-point line marker. -/
def dashSpace : List Nat := listCodes ['-', ' ']

/-- Codepoints of the star token, the technical-detail line marker. -/
def starTok : List Nat := listCodes ['*']

/-- Codepoints of star-space, the argument of `strip` on detail lines. -/
def starSpace : List Nat := listCodes ['*', ' ']

/-- Codepoints of the word implication. -/
def implicationWord : List Nat :=
  listCodes ['i', 'm', 'p', 'l', 'i', 'c', 'a', 't', 'i', 'o', 'n']

/-- Codepoints of the default title Untitled. -/
def untitled : List Nat := listCodes ['U', 'n', 't', 'i', 't', 'l', 'e', 'd']

/-- The heuristic free-text parser shared verbatim by the Cohere, OpenAI and
Claude variants (summarizer.py lines 73-86, 134-148, 165-179):
`lines = generated_text.split(chr(10))`;
`title = lines[0] if lines else Untitled`;
`main_points = [line.strip(dash-space) for line in lines if line.startswith(dash-space)][:3]`;
`technical_details = [line.strip(star-space) for line in lines if line.startswith(star)][:2]`;
`implications = [line for line in lines if implication in line.lower()][:2]`. -/
def parseSummaryText (generated_text : List Nat) : Summary :=
  let lines := splitNl generated_text
  { title := match lines with
      | [] => untitled
      | h :: _ => h
    main_points :=
      ((lines.filter (fun line => startsWith dashSpace line)).map
        (fun line => pyStrip dashSpace line)).take 3
    technical_details :=
      ((lines.filter (fun line => startsWith starTok line)).map
        (fun line => pyStrip starSpace line)).take 2
    implications :=
      (lines.filter (fun line => containsSub implicationWord (pyLower line))).take 2 }

/-! ### Provider call outcomes

Each provider function performs network calls through an external client
library.  The outcome of each call is an input of the model.  Raised Python
exceptions are modelled by an `Except` result: `SummErr.config` is an
explicitly raised `ValueError` (missing API key, failed liveness status),
`SummErr.transport` is an exception from the client library propagating
uncaught through the provider function. -/

/-- How a provider function terminates abnormally. -/
inductive SummErr where
  /-- An explicitly raised `ValueError` (a configuration error). -/
  | config
  /-- An uncaught exception from the client library propagating out. -/
  | transport
  /-- An uncaught exception of the function's own body propagating out: the
  `KeyError` of `response.json()[response-key]` when the key is absent, or
  the `TypeError` of `Summary(**summary_dict)` when the decoded JSON is not
  an object — neither class is in the `except` tuple at line 112. -/
  | uncaught
deriving Repr, DecidableEq

/-- Outcome of the Ollama liveness check `requests.get(url)` at line 93. -/
inductive LivenessResult where
  /-- The GET itself raised (endpoint unreachable at transport level). -/
  | raised
  /-- The GET returned, with this `status_code`. -/
  | status (code : Nat)
deriving Repr, DecidableEq

/-- Outcome of the Ollama generation step (lines 107-111): the POST plus
`raise_for_status`, then the lookup of the body's `response` field, then
`json.loads` of that field, then the `Summary(**summary_dict)` unpacking
with pydantic validation.  The `except` tuple at line 112 catches exactly
`RequestException`, `ValidationError` and `JSONDecodeError`; the `KeyError`
of a missing `response` key and the `TypeError` of unpacking a non-object
are not in it and propagate. -/
inductive GenOutcome where
  /-- `requests.post` or `raise_for_status` raised a `RequestException`. -/
  | transportRaised
  /-- The response body has no `response` key: `KeyError`, uncaught. -/
  | bodyNoResponseKey
  /-- The `response` field is not valid JSON (`json.JSONDecodeError`). -/
  | fieldNotJson
  /-- The field is valid JSON but not a JSON object (e.g. a list), so the
  `**` unpacking raises `TypeError`, uncaught. -/
  | fieldJsonNotObject
  /-- The field parses as a JSON object but fails `Summary` validation
  (pydantic `ValidationError`). -/
  | fieldNotSummary
  /-- The field parses and validates as this `Summary`. -/
  | fieldSummary (s : Summary)
deriving Repr, DecidableEq

/-- The network world one Ollama call runs against. -/
structure OllamaWorld where
  liveness : LivenessResult
  gen : GenOutcome
deriving Repr, DecidableEq

/-- `get_ollama_summary` (summarizer.py lines 88-114).  The liveness check
runs first; a non-200 status raises `ValueError` (Ollama API is not running);
a raising GET propagates.  Only then is the generation request tried, inside
`try/except (RequestException, ValidationError, JSONDecodeError)`, whose
handler returns the sentinel `errorSummary`; the `KeyError` of a missing
`response` key and the `TypeError` of unpacking a non-object JSON value are
outside that tuple and propagate uncaught. -/
def get_ollama_summary (w : OllamaWorld) : Except SummErr Summary :=
  match w.liveness with
  | .raised => .error .transport
  | .status code =>
    if code ≠ 200 then .error .config
    else
      match w.gen with
      | .transportRaised => .ok errorSummary
      | .bodyNoResponseKey => .error .uncaught
      | .fieldNotJson => .ok errorSummary
      | .fieldJsonNotObject => .error .uncaught
      | .fieldNotSummary => .ok errorSummary
      | .fieldSummary s => .ok s

/-- The HTTP requests `get_ollama_summary` can issue. -/
inductive OllamaCall where
  /-- The liveness `GET` to the base URL. -/
  | getLiveness
  /-- The generation `POST` to `/api/generate`. -/
  | postGenerate
deriving Repr, DecidableEq

/-- The requests `get_ollama_summary` actually issues against world `w`, in
program order: the GET always runs; the POST runs only after the GET returned
status 200 (otherwise the function has already raised). -/
def ollama_calls (w : OllamaWorld) : List OllamaCall :=
  match w.liveness with
  | .raised => [.getLiveness]
  | .status code =>
    if code ≠ 200 then [.getLiveness] else [.getLiveness, .postGenerate]

/-- Outcome of a text-completion request (Cohere `co.generate`, OpenAI
`Completion.create`, Anthropic `completions.create`): either the client
library raised, or it returned this generated text. -/
inductive CompletionResult where
  /-- The client-library call raised. -/
  | raised
  /-- The call returned this completion text. -/
  | text (t : List Nat)
deriving Repr, DecidableEq

/-- The world one Cohere/OpenAI/Claude call runs against: the provider's API
key environment variable (`none` when unset) and the completion outcome. -/
structure CompletionWorld where
  apiKey : Option (List Nat)
  gen : CompletionResult
deriving Repr, DecidableEq

/-- `get_cohere_summary` (lines 53-86).  Missing `COHERE_API_KEY` raises
`ValueError`; the `co.generate` call sits in no `try` block, so a raising
call propagates; a returned completion is parsed heuristically. -/
def get_cohere_summary (w : CompletionWorld) : Except SummErr Summary :=
  match w.apiKey with
  | none => .error .config
  | some _ =>
    match w.gen with
    | .raised => .error .transport
    | .text t => .ok (parseSummaryText t)

/-- `get_openai_summary` (lines 116-148).  Same shape as Cohere, except the
returned text is whitespace-stripped (`response.choices[0].text.strip()`)
before parsing. -/
def get_openai_summary (w : CompletionWorld) : Except SummErr Summary :=
  match w.apiKey with
  | none => .error .config
  | some _ =>
    match w.gen with
    | .raised => .error .transport
    | .text t => .ok (parseSummaryText (pyStripWS t))

/-- `get_claude_summary` (lines 150-179).  Same shape as Cohere; the
completion text is parsed unstripped (`response.completion`). -/
def get_claude_summary (w : CompletionWorld) : Except SummErr Summary :=
  match w.apiKey with
  | none => .error .config
  | some _ =>
    match w.gen with
    | .raised => .error .transport
    | .text t => .ok (parseSummaryText t)

/-! ### Provider selection (get_summary_function, lines 181-189) -/

/-- The four summary functions the factory can return. -/
inductive SummaryFn where
  | cohereFn
  | ollamaFn
  | openaiFn
  | claudeFn
deriving Repr, DecidableEq

/-- Codepoints of the provider name cohere. -/
def nmCohere : List Nat := listCodes ['c', 'o', 'h', 'e', 'r', 'e']

/-- Codepoints of the provider name ollama. -/
def nmOllama : List Nat := listCodes ['o', 'l', 'l', 'a', 'm', 'a']

/-- Codepoints of the provider name openai. -/
def nmOpenai : List Nat := listCodes ['o', 'p', 'e', 'n', 'a', 'i']

/-- Codepoints of the provider name claude. -/
def nmClaude : List Nat := listCodes ['c', 'l', 'a', 'u', 'd', 'e']

/-- `get_summary_function`: dictionary lookup over the four provider names
with `get_cohere_summary` as the `.get` default for any other name. -/
def get_summary_function (provider : List Nat) : SummaryFn :=
  if provider = nmCohere then .cohereFn
  else if provider = nmOllama then .ollamaFn
  else if provider = nmOpenai then .openaiFn
  else if provider = nmClaude then .claudeFn
  else .cohereFn

/-! ### The batch loop (process_talk_pdfs, lines 191-222) -/

/-- Codepoints of the lower-case extension .pdf. -/
def extPdf : List Nat := listCodes ['.', 'p', 'd', 'f']

/-- Codepoints of the output-name tail _summary.json. -/
def summarySuffix : List Nat :=
  listCodes ['_', 's', 'u', 'm', 'm', 'a', 'r', 'y', '.', 'j', 's', 'o', 'n']

/-- `os.path.splitext(s)[0]`: everything before the last dot, the whole name
when there is none. -/
def splitextStem (s : List Nat) : List Nat :=
  if 46 ∈ s then ((s.reverse.dropWhile (· ≠ 46)).drop 1).reverse else s

/-- One directory entry seen by the batch: its filename, the text that
`read_pdf` extracts from it (empty on extraction failure, which `read_pdf`
catches and turns into empty text), and the provider-call world for it. -/
structure PdfEntry (α : Type) where
  name : List Nat
  extractedText : List Nat
  world : α
deriving Repr, DecidableEq

/-- `process_talk_pdfs`: for each directory entry ending in .pdf whose
extracted text is non-empty, call the selected provider function and record
the written summary file `(stem + _summary.json, summary)`.  The provider
call sits in no `try` block, so a raising call propagates out of the loop
(modelled by the `Except` short-circuit); entries with empty text or a
non-.pdf name are skipped with a log line only.  `noSummary` skips the
provider call entirely. -/
def process_talk_pdfs (call : α → Except SummErr Summary) (noSummary : Bool) :
    List (PdfEntry α) → Except SummErr (List (List Nat × Summary))
  | [] => .ok []
  | f :: rest =>
    if endsWith extPdf f.name then
      if f.extractedText ≠ [] then
        if noSummary then process_talk_pdfs call noSummary rest
        else
          match call f.world with
          | .error e => .error e
          | .ok s =>
            match process_talk_pdfs call noSummary rest with
            | .error e => .error e
            | .ok r => .ok ((splitextStem f.name ++ summarySuffix, s) :: r)
      else process_talk_pdfs call noSummary rest
    else process_talk_pdfs call noSummary rest

/-! ### Spider path filtering (run_spider.py lines 92-115) -/

/-- The `allowed_extensions` list of `is_allowed_file`. -/
def allowed_extensions : List (List Nat) :=
  [listCodes ['.', 'p', 'd', 'f'],
   listCodes ['.', 'f', 'l', 'a', 'c'],
   listCodes ['.', 'o', 'p', 'u', 's'],
   listCodes ['.', 't', 'x', 't']]

/-- `is_allowed_file`: `any(filename.lower().endswith(ext) for ext in
allowed_extensions)`. -/
def is_allowed_file (filename : List Nat) : Bool :=
  allowed_extensions.any (fun ext => endsWith ext (pyLower filename))

/-! ### ContentStore (DefConSpider.save_file, run_spider.py lines 133-175)

`save_file` is modelled as a state transition.  The state carries the
process-wide seen-hash set `downloaded_files`, the sequence of files written
to disk, and the metadata-ledger lines appended.  The MD5 digest is an
external library (`hashlib`); it enters the model as an explicit function
parameter `digest` — every theorem below holds for an arbitrary digest
function, which in particular is deterministic, the only property the code
relies on.  An I/O failure of the `open`/`write` at lines 155-156 is an
input of the step (`writeFails`); when it happens the raised `OSError`
propagates, so nothing after the `with` block runs. -/

/-- `DefConConfig`: the fields `save_file` reads. -/
structure DefConConfig where
  output_dir : List Nat
  max_file_size : Nat
deriving Repr, DecidableEq

/-- The parts of a scrapy download `Response` that `save_file` reads: the
path component of `response.url` (the `urlparse` boundary), the parsed
`Content-Length` header when present, the raw body bytes, and
`response.meta` event name. -/
structure FileResponse where
  url_path : List Nat
  content_length : Option Nat
  body : List Nat
  event_name : List Nat
deriving Repr, DecidableEq

/-- `os.path.basename`: the part after the last slash (codepoint 47). -/
def basename (p : List Nat) : List Nat :=
  (p.reverse.takeWhile (· ≠ 47)).reverse

/-- `os.path.join` for a relative second component: insert one slash. -/
def joinPath (a b : List Nat) : List Nat := a ++ [47] ++ b

/-- The spider's mutable store: the seen-hash set (a Python `set`, modelled
by a membership list), the files written (path, bytes) in write order, and
the metadata lines appended as (event name, filename) in append order. -/
structure StoreState where
  downloaded_files : List (List Nat)
  files : List (List Nat × List Nat)
  metadata : List (List Nat × List Nat)
deriving Repr, DecidableEq

/-- The spider's state at `__init__`: `self.downloaded_files = set()`, no
file written, no ledger line. -/
def initStore : StoreState :=
  { downloaded_files := [], files := [], metadata := [] }

/-- One `save_file` callback (lines 133-163).  In source order:
`int(response.headers.get(Content-Length, 0)) > max_file_size` skips large
files (absent header defaults to 0); `hashlib.md5(response.body).hexdigest()`
is looked up in `downloaded_files` and duplicates are skipped; then the file
is written — if the write raises (`writeFails`), the exception propagates and
neither the hash insert, nor `update_metadata`, nor the sleep runs; on
success the hash is added, the file recorded, and `update_metadata` appends
one `filename` line to `<output_dir>/<event_name>_metadata.txt`. -/
def save_file (digest : List Nat → List Nat) (cfg : DefConConfig)
    (r : FileResponse) (writeFails : Bool) (st : StoreState) : StoreState :=
  let filename := basename r.url_path
  let event_dir := joinPath cfg.output_dir r.event_name
  let filepath := joinPath event_dir filename
  if r.content_length.getD 0 > cfg.max_file_size then st
  else
    let file_hash := digest r.body
    if file_hash ∈ st.downloaded_files then st
    else if writeFails then st
    else
      { downloaded_files := file_hash :: st.downloaded_files
        files := st.files ++ [(filepath, r.body)]
        metadata := st.metadata ++ [(r.event_name, filename)] }

/-- A whole run's worth of `save_file` callbacks, applied in arrival order;
each step carries its response and whether its write raised. -/
def run_save_files (digest : List Nat → List Nat) (cfg : DefConConfig)
    (steps : List (FileResponse × Bool)) (st : StoreState) : StoreState :=
  steps.foldl (fun s step => save_file digest cfg step.1 step.2 s) st

/-! ### Spec-side restatements of the heuristic parser

These two definitions follow the words of the specification, to be compared
with `parseSummaryText`, which is translated from the code.  They are the
only definitions in this file not taken from the source. -/

/-- The parser exactly as the spec sentence describes it: first line as
title; the first 3 lines starting with dash-space, with that prefix
stripped; the first 2 lines starting with star, with that prefix stripped;
the first 2 lines containing implication case-insensitively, unmodified. -/
def parseSummaryText_claimed (generated_text : List Nat) : Summary :=
  let lines := splitNl generated_text
  { title := lines.headD untitled
    main_points :=
      ((lines.filter (fun line => startsWith dashSpace line)).take 3).map
        (fun line => dropExact dashSpace line)
    technical_details :=
      ((lines.filter (fun line => startsWith starTok line)).take 2).map
        (fun line => dropExact starTok line)
    implications :=
      (lines.filter (fun line => containsSub implicationWord (pyLower line))).take 2 }

/-- The spec sentence amended no more than the counterexample forces: the
matched lines are not prefix-stripped but stripped, Python style, of every
leading and trailing codepoint of the marker set (dash and space for main
points, star and space for technical details). -/
def parseSummaryText_amended (generated_text : List Nat) : Summary :=
  let lines := splitNl generated_text
  { title := lines.headD untitled
    main_points :=
      ((lines.filter (fun line => startsWith dashSpace line)).take 3).map
        (fun line => pyStrip dashSpace line)
    technical_details :=
      ((lines.filter (fun line => startsWith starTok line)).take 2).map
        (fun line => pyStrip starSpace line)
    implications :=
      (lines.filter (fun line => containsSub implicationWord (pyLower line))).take 2 }

/-! ### Concrete fixtures used by witness theorems -/

/-- A digest function for witnesses (the theorems about `save_file` hold for
every digest; the identity is the simplest executable instance). -/
def sampleDigest : List Nat → List Nat := fun b => b

/-- A small configuration for witnesses. -/
def sampleCfg : DefConConfig :=
  { output_dir := listCodes ['o'], max_file_size := 100 }

/-- A small download response for witnesses. -/
def sampleResponse : FileResponse :=
  { url_path := listCodes ['a', '.', 'p', 'd', 'f']
    content_length := none
    body := listCodes ['b']
    event_name := listCodes ['D'] }

/-- The store invariant maintained by every `save_file` step: every written
file's digest is in the seen-hash set, and no two written files share a
digest. -/
def StoreInv (digest : List Nat → List Nat) (st : StoreState) : Prop :=
  (∀ q ∈ st.files, digest q.2 ∈ st.downloaded_files) ∧
  st.files.Pairwise (fun a b => digest a.2 ≠ digest b.2)

/-! ### Helper lemmas -/

/-- A duplicate-hash admission leaves the store unchanged. -/
theorem save_file_dup (digest : List Nat → List Nat) (cfg : DefConConfig)
    (r : FileResponse) (w : Bool) (st : StoreState)
    (h : digest r.body ∈ st.downloaded_files) :
    save_file digest cfg r w st = st := by
  by_cases hsz : r.content_length.getD 0 > cfg.max_file_size <;>
    simp [save_file, hsz, h]

/-- A fully accepted admission records the digest, the file and the ledger
line. -/
theorem save_file_accept (digest : List Nat → List Nat) (cfg : DefConConfig)
    (r : FileResponse) (st : StoreState)
    (hsz : ¬ r.content_length.getD 0 > cfg.max_file_size)
    (hdup : digest r.body ∉ st.downloaded_files) :
    save_file digest cfg r false st =
      { downloaded_files := digest r.body :: st.downloaded_files
        files := st.files ++
          [(joinPath (joinPath cfg.output_dir r.event_name)
              (basename r.url_path), r.body)]
        metadata := st.metadata ++ [(r.event_name, basename r.url_path)] } := by
  simp [save_file, hsz, hdup]

/-- Every `save_file` step either leaves the store unchanged or appends one
file whose digest was not yet seen. -/
theorem save_file_cases (digest : List Nat → List Nat) (cfg : DefConConfig)
    (r : FileResponse) (w : Bool) (st : StoreState) :
    save_file digest cfg r w st = st ∨
    (digest r.body ∉ st.downloaded_files ∧
      save_file digest cfg r w st =
        { downloaded_files := digest r.body :: st.downloaded_files
          files := st.files ++
            [(joinPath (joinPath cfg.output_dir r.event_name)
                (basename r.url_path), r.body)]
          metadata := st.metadata ++ [(r.event_name, basename r.url_path)] }) := by
  by_cases hsz : r.content_length.getD 0 > cfg.max_file_size
  · left
    simp [save_file, hsz]
  · by_cases hdup : digest r.body ∈ st.downloaded_files
    · left
      exact save_file_dup digest cfg r w st hdup
    · cases w with
      | true =>
        left
        simp [save_file, hsz, hdup]
      | false =>
        right
        exact ⟨hdup, save_file_accept digest cfg r st hsz hdup⟩

/-- One `save_file` step preserves the store invariant. -/
theorem storeInv_save (digest : List Nat → List Nat) (cfg : DefConConfig)
    (r : FileResponse) (w : Bool) (st : StoreState)
    (h : StoreInv digest st) :
    StoreInv digest (save_file digest cfg r w st) := by
  rcases save_file_cases digest cfg r w st with h1 | ⟨hdup, h1⟩
  · rw [h1]
    exact h
  · rw [h1]
    constructor
    · intro q hq
      rcases List.mem_append.mp hq with hq | hq
      · exact List.mem_cons_of_mem _ (h.1 q hq)
      · rw [List.mem_singleton.mp hq]
        exact List.mem_cons_self _ _
    · refine List.pairwise_append.mpr ⟨h.2, ?_, ?_⟩
      · simp
      · intro a ha b hb
        rw [List.mem_singleton.mp hb]
        intro he
        exact hdup (he ▸ h.1 a ha)

/-- A whole run of `save_file` steps preserves the store invariant. -/
theorem storeInv_run (digest : List Nat → List Nat) (cfg : DefConConfig)
    (steps : List (FileResponse × Bool)) (st : StoreState)
    (h : StoreInv digest st) :
    StoreInv digest (run_save_files digest cfg steps st) := by
  induction steps generalizing st with
  | nil => exact h
  | cons s rest ih =>
    have h2 := storeInv_save digest cfg s.1 s.2 st h
    simpa [run_save_files] using
      ih (save_file digest cfg s.1 s.2 st) h2

/-- Lowering after uppering is lowering, per codepoint. -/
theorem pyLowerChar_pyUpperChar (c : Nat) :
    pyLowerChar (pyUpperChar c) = pyLowerChar c := by
  by_cases h : 97 ≤ c ∧ c ≤ 122
  · have h1 : 65 ≤ c - 32 ∧ c - 32 ≤ 90 := by omega
    have h2 : ¬(65 ≤ c ∧ c ≤ 90) := by omega
    simp only [pyUpperChar, pyLowerChar, if_pos h, if_pos h1, if_neg h2]
    omega
  · simp only [pyUpperChar, if_neg h]

/-- Lowering after uppering is lowering, per string. -/
theorem pyLower_pyUpper (s : List Nat) : pyLower (pyUpper s) = pyLower s := by
  induction s with
  | nil => rfl
  | cons c t ih =>
    simp only [pyLower, pyUpper, List.map_cons] at ih ⊢
    rw [pyLowerChar_pyUpperChar]
    exact congrArg _ ih

/-- `get_ollama_summary` on a world whose liveness check passed and whose
generation outcome avoids the two uncaught exception paths (missing
`response` key, non-object JSON field) returns normally — used for the batch
part of the provider-failure analysis. -/
theorem get_ollama_summary_ok_of_live (w : OllamaWorld)
    (hl : w.liveness = LivenessResult.status 200)
    (hk : w.gen ≠ GenOutcome.bodyNoResponseKey)
    (ho : w.gen ≠ GenOutcome.fieldJsonNotObject) :
    ∃ s, get_ollama_summary w = Except.ok s := by
  obtain ⟨lv, gen⟩ := w
  simp only at hl hk ho
  subst hl
  cases gen with
  | transportRaised => exact ⟨errorSummary, rfl⟩
  | bodyNoResponseKey => exact absurd rfl hk
  | fieldNotJson => exact ⟨errorSummary, rfl⟩
  | fieldJsonNotObject => exact absurd rfl ho
  | fieldNotSummary => exact ⟨errorSummary, rfl⟩
  | fieldSummary s => exact ⟨s, rfl⟩

/-- On codepoints below 128 the full-Unicode uppercase mapping agrees with
the ASCII one. -/
theorem pyUpperU_ascii (f : List Nat) :
    (∀ c ∈ f, c < 128) → pyUpperU f = pyUpper f := by
  induction f with
  | nil => intro _; rfl
  | cons c t ih =>
    intro h
    have hc : c ≠ 64258 := by
      have := h c (List.mem_cons_self c t)
      omega
    have ht := ih fun d hd => h d (List.mem_cons_of_mem c hd)
    simp [pyUpperU, pyUpper, pyUpperCharU, hc] at ht ⊢
    exact ht

/-! ### Claim theorems -/

/-- C7 counterexample: on the concrete filename x.ﬂac (with the Latin small
ligature fl, codepoint 64258), `is_allowed_file` is false, yet on its full
Unicode upper-casing X.FLAC it is true — `str.upper`'s multi-codepoint
expansions break the claimed equivalence. -/
theorem is_allowed_file_unicode_cex :
    is_allowed_file ([120, 46, 64258, 97, 99]) = false ∧
    is_allowed_file (pyUpperU [120, 46, 64258, 97, 99]) = true := by
  decide

/-- C7 amended: for every filename made of codepoints below 128 (where the
full Unicode case mapping coincides with the ASCII one), `is_allowed_file f`
equals `is_allowed_file` of the upper-cased `f` — the extension check
against {.pdf, .flac, .opus, .txt} is case-insensitive on the ASCII range,
but not under Unicode multi-codepoint expansions. -/
theorem is_allowed_file_case_insensitive_ascii (f : List Nat)
    (h : ∀ c ∈ f, c < 128) :
    is_allowed_file f = is_allowed_file (pyUpperU f) := by
  rw [pyUpperU_ascii f h]
  simp only [is_allowed_file, pyLower_pyUpper]

/-- C7 witness: the concrete ASCII filename a.pdf keeps its admission
verdict under upper-casing. -/
theorem is_allowed_file_case_insensitive_ascii_witness :
    is_allowed_file (listCodes ['a', '.', 'p', 'd', 'f']) =
      is_allowed_file (pyUpperU (listCodes ['a', '.', 'p', 'd', 'f'])) :=
  is_allowed_file_case_insensitive_ascii _ (by decide)

/-- C8: the provider-selection lookup returns the matching variant for the
names cohere, ollama, openai and claude, and returns the Cohere variant for
any unrecognized name. -/
theorem get_summary_function_spec :
    get_summary_function nmCohere = SummaryFn.cohereFn ∧
    get_summary_function nmOllama = SummaryFn.ollamaFn ∧
    get_summary_function nmOpenai = SummaryFn.openaiFn ∧
    get_summary_function nmClaude = SummaryFn.claudeFn ∧
    ∀ p, p ≠ nmCohere → p ≠ nmOllama → p ≠ nmOpenai → p ≠ nmClaude →
      get_summary_function p = SummaryFn.cohereFn := by
  refine ⟨by decide, by decide, by decide, by decide, ?_⟩
  intro p h1 h2 h3 h4
  simp [get_summary_function, h1, h2, h3, h4]

/-- C8 witness: the lookup at the concrete unrecognized name x falls back to
the Cohere variant. -/
theorem get_summary_function_spec_witness :
    get_summary_function (listCodes ['x']) = SummaryFn.cohereFn :=
  get_summary_function_spec.2.2.2.2 (listCodes ['x'])
    (by decide) (by decide) (by decide) (by decide)

/-- C4 counterexample: at the concrete live world whose `response` field
holds valid JSON that is not an object — which does not validate against the
Summary schema — the Ollama variant raises an uncaught `TypeError` at the
`**` unpacking instead of returning the sentinel. -/
theorem ollama_nonobject_field_raises_cex :
    get_ollama_summary
        { liveness := .status 200, gen := .fieldJsonNotObject } =
      Except.error SummErr.uncaught ∧
    get_ollama_summary
        { liveness := .status 200, gen := .fieldJsonNotObject } ≠
      Except.ok errorSummary :=
  ⟨rfl, by simp [get_ollama_summary]⟩

/-- C4 amended: when the liveness check passed, a `response` field that is
not valid JSON, or is a JSON object failing Summary validation, makes the
Ollama variant return the sentinel Summary (title Error, all three lists
empty) without raising; but a `response` field holding valid non-object JSON
raises an uncaught `TypeError`, and a body with no `response` key raises an
uncaught `KeyError`. -/
theorem ollama_bad_field_behavior :
    (∀ w : OllamaWorld, w.liveness = LivenessResult.status 200 →
      w.gen = GenOutcome.fieldNotJson ∨ w.gen = GenOutcome.fieldNotSummary →
      get_ollama_summary w = Except.ok errorSummary) ∧
    ∀ w : OllamaWorld, w.liveness = LivenessResult.status 200 →
      w.gen = GenOutcome.fieldJsonNotObject ∨
        w.gen = GenOutcome.bodyNoResponseKey →
      get_ollama_summary w = Except.error SummErr.uncaught := by
  constructor
  · intro w hl hg
    obtain ⟨lv, gen⟩ := w
    simp only at hl hg
    subst hl
    rcases hg with h | h <;> subst h <;> rfl
  · intro w hl hg
    obtain ⟨lv, gen⟩ := w
    simp only at hl hg
    subst hl
    rcases hg with h | h <;> subst h <;> rfl

/-- C4 witness: the sentinel at the concrete world whose generation field is
not JSON, and the uncaught error at the concrete world whose field is valid
non-object JSON. -/
theorem ollama_bad_field_behavior_witness :
    get_ollama_summary { liveness := .status 200, gen := .fieldNotJson } =
      Except.ok errorSummary ∧
    get_ollama_summary
        { liveness := .status 200, gen := .fieldJsonNotObject } =
      Except.error SummErr.uncaught :=
  ⟨ollama_bad_field_behavior.1 _ rfl (Or.inl rfl),
   ollama_bad_field_behavior.2 _ rfl (Or.inl rfl)⟩

/-- C9: when the `open`/`write` of the output file raises, nothing after the
write runs: the seen-hash set, the written-file list and the metadata ledger
are all left exactly as they were — the hash is recorded and the ledger line
appended only after the file write completes. -/
theorem save_file_write_failure_frame (digest : List Nat → List Nat)
    (cfg : DefConConfig) (r : FileResponse) (st : StoreState) :
    save_file digest cfg r true st = st := by
  simp [save_file]

/-- C3: an admission whose declared content-length exceeds the configured
maximum writes no file, adds no hash and appends no ledger line — the store
state is unchanged. -/
theorem oversize_admission_noop (digest : List Nat → List Nat)
    (cfg : DefConConfig) (r : FileResponse) (w : Bool) (st : StoreState)
    (n : Nat) (hcl : r.content_length = some n)
    (hn : cfg.max_file_size < n) :
    save_file digest cfg r w st = st := by
  simp [save_file, hcl, hn]

/-- C3 witness: the concrete oversized admission (declared length 101,
maximum 100) leaves the initial store untouched. -/
theorem oversize_admission_noop_witness :
    save_file sampleDigest sampleCfg
      { sampleResponse with content_length := some 101 } false initStore =
      initStore :=
  oversize_admission_noop sampleDigest sampleCfg _ false initStore 101 rfl
    (by decide)

/-- C10: the size check reads only the declared Content-Length header,
defaulting to 0 when it is absent; a payload with no header whose actual
body exceeds the maximum is still written in full (provided it is not a
duplicate). -/
theorem no_header_bypasses_size_check (digest : List Nat → List Nat)
    (cfg : DefConConfig) (r : FileResponse) (st : StoreState)
    (hcl : r.content_length = none)
    (hbig : cfg.max_file_size < r.body.length)
    (hdup : digest r.body ∉ st.downloaded_files) :
    (save_file digest cfg r false st).files =
      st.files ++
        [(joinPath (joinPath cfg.output_dir r.event_name) (basename r.url_path),
          r.body)] := by
  simp [save_file, hcl, hdup]

/-- C10 witness: with maximum size 0, no Content-Length header and a
one-byte body, the file is written in full. -/
theorem no_header_bypasses_size_check_witness :
    (save_file sampleDigest { sampleCfg with max_file_size := 0 }
        sampleResponse false initStore).files =
      initStore.files ++
        [(joinPath (joinPath sampleCfg.output_dir sampleResponse.event_name)
            (basename sampleResponse.url_path),
          sampleResponse.body)] :=
  no_header_bypasses_size_check sampleDigest _ sampleResponse initStore rfl
    (by decide) (by decide)

/-- C5 counterexample: at the concrete world whose liveness GET itself
raises (the endpoint is unreachable at transport level), the Ollama variant
propagates that transport exception — it does not raise the configuration
error (`ValueError`), which the code reaches only when the GET returns a
non-200 status.  The generation request is still never made. -/
theorem ollama_unreachable_not_config :
    get_ollama_summary
        { liveness := .raised, gen := .fieldSummary errorSummary } =
      Except.error SummErr.transport ∧
    Except.error SummErr.transport ≠
      (Except.error SummErr.config : Except SummErr Summary) ∧
    ollama_calls { liveness := .raised, gen := .fieldSummary errorSummary } =
      [OllamaCall.getLiveness] :=
  ⟨rfl, by simp, rfl⟩

/-- C5 amended: whenever the liveness check does not come back with status
200, the generation request is never made and `get_ollama_summary` raises —
a configuration error when the GET returned some non-200 status, and the
GET's own transport error when the GET itself failed. -/
theorem ollama_liveness_gate (w : OllamaWorld)
    (h : w.liveness ≠ LivenessResult.status 200) :
    OllamaCall.postGenerate ∉ ollama_calls w ∧
    (∃ e, get_ollama_summary w = Except.error e) ∧
    ∀ c, w.liveness = LivenessResult.status c →
      get_ollama_summary w = Except.error SummErr.config := by
  obtain ⟨lv, gen⟩ := w
  simp only at h ⊢
  cases lv with
  | raised =>
    refine ⟨by simp [ollama_calls], ⟨SummErr.transport, rfl⟩, ?_⟩
    intro c hc
    exact absurd hc (by simp)
  | status code =>
    have hcode : code ≠ 200 := fun e => h (by rw [e])
    refine ⟨by simp [ollama_calls, hcode], ⟨SummErr.config, ?_⟩, ?_⟩
    · simp [get_ollama_summary, hcode]
    · intro c _
      simp [get_ollama_summary, hcode]

/-- C5 witness: at the concrete world whose liveness GET returned status
500, the generation POST is absent from the issued calls and the result is
the configuration error. -/
theorem ollama_liveness_gate_witness :
    OllamaCall.postGenerate ∉
      ollama_calls { liveness := .status 500, gen := .fieldSummary errorSummary } ∧
    (∃ e, get_ollama_summary
        { liveness := .status 500, gen := .fieldSummary errorSummary } =
      Except.error e) ∧
    ∀ c, ({ liveness := .status 500, gen := .fieldSummary errorSummary } :
        OllamaWorld).liveness = LivenessResult.status c →
      get_ollama_summary
          { liveness := .status 500, gen := .fieldSummary errorSummary } =
        Except.error SummErr.config :=
  ollama_liveness_gate _ (by decide)

/-- C6 counterexample: on the concrete completion whose second line is
dash-space a space-dash, the code's parser yields main point a (Python
`strip` removes dashes and spaces from both ends), while the claimed parser
(remove exactly the leading dash-space) would yield a space-dash. -/
theorem parse_heuristic_strip_cex :
    parseSummaryText (listCodes ['T', '\n', '-', ' ', 'a', ' ', '-']) ≠
      parseSummaryText_claimed (listCodes ['T', '\n', '-', ' ', 'a', ' ', '-']) := by
  decide

/-- C6 amended: for every free-text completion the heuristic parser produces
the first line as title; the first 3 lines starting with dash-space, each
stripped at both ends of every dash and space codepoint, as main points; the
first 2 lines starting with star, each stripped at both ends of every star
and space codepoint, as technical details; and the first 2 lines containing
implication case-insensitively, unmodified, as implications. -/
theorem parse_heuristic_amended (t : List Nat) :
    parseSummaryText t = parseSummaryText_amended t := by
  unfold parseSummaryText parseSummaryText_amended
  cases h : splitNl t with
  | nil => simp [List.map_take]
  | cons a l => simp [List.map_take]

/-- C1 counterexample: at the concrete world with the Cohere key set and a
raising `co.generate` call, the Cohere variant does not return the sentinel
Summary — the exception propagates (there is no try/except around the
call), and a concrete two-file batch aborts on its first file instead of
proceeding to the second. -/
theorem provider_failure_not_sentinel_cex :
    get_cohere_summary { apiKey := some (listCodes ['k']), gen := .raised } =
      Except.error SummErr.transport ∧
    get_cohere_summary { apiKey := some (listCodes ['k']), gen := .raised } ≠
      Except.ok errorSummary ∧
    process_talk_pdfs get_cohere_summary false
      [{ name := listCodes ['a', '.', 'p', 'd', 'f']
         extractedText := listCodes ['t']
         world := { apiKey := some (listCodes ['k']), gen := .raised } },
       { name := listCodes ['b', '.', 'p', 'd', 'f']
         extractedText := listCodes ['t']
         world := { apiKey := some (listCodes ['k'])
                    gen := .text (listCodes ['t']) } }] =
      Except.error SummErr.transport :=
  ⟨rfl, by simp [get_cohere_summary], rfl⟩

/-- C1 amended: only the Ollama variant substitutes the sentinel Summary
(title Error, all lists empty) on a caught provider failure (generation
transport error, non-JSON field, validation failure); the Cohere, OpenAI and
Claude variants catch nothing, so a raising provider call propagates out of
the function (and out of the batch loop); a batch run on a live Ollama
endpoint whose responses avoid the two uncaught exception paths (missing
`response` key, non-object JSON field) completes with a result for every
summarized file. -/
theorem provider_failure_behavior :
    (∀ w : OllamaWorld, w.liveness = LivenessResult.status 200 →
      w.gen = GenOutcome.transportRaised ∨ w.gen = GenOutcome.fieldNotJson ∨
        w.gen = GenOutcome.fieldNotSummary →
      get_ollama_summary w = Except.ok errorSummary) ∧
    (∀ w : CompletionWorld, w.apiKey ≠ none →
      w.gen = CompletionResult.raised →
      get_cohere_summary w = Except.error SummErr.transport ∧
      get_openai_summary w = Except.error SummErr.transport ∧
      get_claude_summary w = Except.error SummErr.transport) ∧
    ∀ entries : List (PdfEntry OllamaWorld),
      (∀ f ∈ entries, f.world.liveness = LivenessResult.status 200 ∧
        f.world.gen ≠ GenOutcome.bodyNoResponseKey ∧
        f.world.gen ≠ GenOutcome.fieldJsonNotObject) →
      ∃ r, process_talk_pdfs get_ollama_summary false entries = Except.ok r := by
  refine ⟨?_, ?_, ?_⟩
  · intro w hl hg
    obtain ⟨lv, gen⟩ := w
    simp only at hl hg
    subst hl
    rcases hg with h | h | h <;> subst h <;> rfl
  · intro w hk hg
    obtain ⟨key, gen⟩ := w
    simp only at hk hg
    subst hg
    cases key with
    | none => exact absurd rfl hk
    | some k =>
      exact ⟨rfl, rfl, rfl⟩
  · intro entries
    induction entries with
    | nil => exact fun _ => ⟨[], rfl⟩
    | cons f rest ih =>
      intro hlive
      obtain ⟨r, hr⟩ := ih fun g hg => hlive g (List.mem_cons_of_mem f hg)
      obtain ⟨hl, hk, ho⟩ := hlive f (List.mem_cons_self f rest)
      obtain ⟨s, hs⟩ := get_ollama_summary_ok_of_live f.world hl hk ho
      by_cases hp : endsWith extPdf f.name = true
      · by_cases ht : f.extractedText = []
        · exact ⟨r, by simp [process_talk_pdfs, hp, ht, hr]⟩
        · exact ⟨(splitextStem f.name ++ summarySuffix, s) :: r,
            by simp [process_talk_pdfs, hp, ht, hs, hr]⟩
      · exact ⟨r, by simp [process_talk_pdfs, hp, hr]⟩

/-- C1 witness: at concrete worlds — a live Ollama endpoint with a raising
POST, and the three key-bearing completion providers with raising calls —
the Ollama variant yields the sentinel, the other three propagate, and a
concrete one-file Ollama batch completes. -/
theorem provider_failure_behavior_witness :
    get_ollama_summary { liveness := .status 200, gen := .transportRaised } =
      Except.ok errorSummary ∧
    (get_cohere_summary { apiKey := some (listCodes ['k']), gen := .raised } =
        Except.error SummErr.transport ∧
      get_openai_summary { apiKey := some (listCodes ['k']), gen := .raised } =
        Except.error SummErr.transport ∧
      get_claude_summary { apiKey := some (listCodes ['k']), gen := .raised } =
        Except.error SummErr.transport) ∧
    ∃ r, process_talk_pdfs get_ollama_summary false
        [{ name := listCodes ['a', '.', 'p', 'd', 'f']
           extractedText := listCodes ['t']
           world := { liveness := .status 200, gen := .transportRaised } }] =
      Except.ok r :=
  ⟨provider_failure_behavior.1 _ rfl (Or.inl rfl),
   provider_failure_behavior.2.1 _ (by simp) rfl,
   provider_failure_behavior.2.2 _ (by
    intro f hf
    rw [List.mem_singleton] at hf
    subst hf
    exact ⟨rfl, by simp, by simp⟩)⟩

/-- C2: in one run starting from the fresh store, no two files written to
disk ever share a content digest; moreover, whenever an admission actually
persisted a file, a later admission of a byte-equal body persists nothing
more — the second is rejected as a duplicate by the seen-hash set,
regardless of order of arrival or of the second write's outcome. -/
theorem dedup_no_two_equal_hash_files (digest : List Nat → List Nat)
    (cfg : DefConConfig) (steps : List (FileResponse × Bool)) :
    (run_save_files digest cfg steps initStore).files.Pairwise
      (fun a b => digest a.2 ≠ digest b.2) ∧
    ∀ (r1 r2 : FileResponse) (w1 w2 : Bool) (st : StoreState)
      (p : List Nat × List Nat),
      r1.body = r2.body →
      (save_file digest cfg r1 w1 st).files = st.files ++ [p] →
      (save_file digest cfg r2 w2 (save_file digest cfg r1 w1 st)).files =
        st.files ++ [p] := by
  constructor
  · exact (storeInv_run digest cfg steps initStore
      ⟨by simp [initStore], by simp [initStore]⟩).2
  · intro r1 r2 w1 w2 st p hbody hsaved
    rcases save_file_cases digest cfg r1 w1 st with h1 | ⟨hdup1, h1⟩
    · rw [h1] at hsaved
      exact absurd (congrArg List.length hsaved) (by simp)
    · rw [h1] at hsaved ⊢
      have hdup2 : digest r2.body ∈
          (digest r1.body :: st.downloaded_files) := by
        rw [← hbody]
        exact List.mem_cons_self _ _
      rw [save_file_dup digest cfg r2 w2 _ hdup2]
      exact hsaved

/-- C2 witness: admitting the same concrete one-byte payload twice from the
fresh store persists exactly the one file written by the first admission. -/
theorem dedup_no_two_equal_hash_files_witness :
    (save_file sampleDigest sampleCfg sampleResponse false
        (save_file sampleDigest sampleCfg sampleResponse false initStore)).files =
      initStore.files ++
        [(joinPath (joinPath sampleCfg.output_dir sampleResponse.event_name)
            (basename sampleResponse.url_path), sampleResponse.body)] :=
  (dedup_no_two_equal_hash_files sampleDigest sampleCfg []).2 sampleResponse
    sampleResponse false false initStore _ rfl (by decide)

end DefconPipeline
